import Mathlib

/-!
Verification of the `AnimatedFAB` and `DrawerItem` components of a
react-native-paper checkout.  The definitions below are a shallow embedding
of the TypeScript source: JavaScript numbers are modelled as rationals,
`Animated.timing` configurations as records, and React Native's
`interpolate` as the piecewise-linear map its implementation computes
(with the default `extend` extrapolation and identity easing).
-/

namespace RNPaper

/-- Easing functions that occur in the source: `Easing.linear` is passed
explicitly for the extend/collapse animation; `inOutEase` stands for
`Easing.inOut(Easing.ease)`, the default of `Animated.timing` used when no
`easing` key is given. -/
inductive Easing where
  | linear
  | inOutEase
  deriving DecidableEq, Repr

/-- The configuration record handed to `Animated.timing(...)`. -/
structure TimingConfig where
  toValue : ℚ
  duration : ℚ
  useNativeDriver : Bool
  easing : Easing
  deriving DecidableEq, Repr

/-- `export type AnimatedFABIconMode = 'static' | 'dynamic'`. -/
inductive AnimatedFABIconMode where
  | static
  | dynamic
  deriving DecidableEq, Repr

/-- `export type AnimatedFABAnimateFrom = 'left' | 'right'`. -/
inductive AnimatedFABAnimateFrom where
  | left
  | right
  deriving DecidableEq, Repr

/-- Destructuring default `animateFrom = 'right'`: a missing
(`undefined`) prop resolves to `'right'`. -/
def resolveAnimateFrom (x : Option AnimatedFABAnimateFrom) : AnimatedFABAnimateFrom :=
  x.getD .right

/-- Destructuring default `iconMode = 'dynamic'`. -/
def resolveIconMode (x : Option AnimatedFABIconMode) : AnimatedFABIconMode :=
  x.getD .dynamic

/-- `const SIZE = 56`. -/
def SIZE : ℚ := 56

/-- `const SCALE = 0.9`. -/
def SCALE : ℚ := 0.9

/-- `const isAnimatedFromRight = animateFrom === 'right'`. -/
def isAnimatedFromRight (animateFrom : AnimatedFABAnimateFrom) : Bool :=
  match animateFrom with
  | .right => true
  | .left => false

/-- `const borderRadius = SIZE / (isV3 ? 3.5 : 2)`. -/
def borderRadius (isV3 : Bool) : ℚ :=
  SIZE / (if isV3 then 3.5 else 2)

/-- `const extendedWidth = textWidth + SIZE + borderRadius`. -/
def extendedWidth (textWidth : ℚ) (isV3 : Bool) : ℚ :=
  textWidth + SIZE + borderRadius isV3

/-- `const distance = isAnimatedFromRight ? -textWidth - borderRadius
: textWidth + borderRadius`. -/
def distance (animateFrom : AnimatedFABAnimateFrom) (textWidth : ℚ) (isV3 : Bool) : ℚ :=
  if isAnimatedFromRight animateFrom then
    -textWidth - borderRadius isV3
  else
    textWidth + borderRadius isV3

/-- Initial value of the `visibility` animated value:
`new Animated.Value(visible ? 1 : 0)`. -/
def visibilityInit (visible : Bool) : ℚ :=
  if visible then 1 else 0

/-- The `Animated.timing` configuration started by the `useEffect` that
watches `visible` (no `easing` key, hence the library default). -/
def visibilityTiming (visible : Bool) (scale : ℚ) : TimingConfig :=
  if visible then
    ⟨1, 200 * scale, true, .inOutEase⟩
  else
    ⟨0, 150 * scale, true, .inOutEase⟩

/-- The `Animated.timing` configuration started by the `useEffect` that
watches `extended`: `toValue: !extended ? 0 : distance`, duration
`150 * scale`, `easing: Easing.linear`. -/
def animFABTiming (extended : Bool) (d scale : ℚ) : TimingConfig :=
  ⟨if !extended then 0 else d, 150 * scale, true, .linear⟩

/-- `const propForDirection = <T,>(right: T[]): T[] =>
isAnimatedFromRight ? right : right.reverse()`. -/
def propForDirection {T : Type} (right? : Bool) (right : List T) : List T :=
  if right? then right else right.reverse

/-- One segment of React Native's `interpolate`: given the surrounding
input/output points, extrapolation mode `extend` (the default) and identity
easing, this is the value the library computes, including its special cases
for a constant output segment and a degenerate input segment. -/
def interpSeg (inMin inMax oMin oMax x : ℚ) : ℚ :=
  if oMin = oMax then oMin
  else if inMin = inMax then (if x ≤ inMin then oMin else oMax)
  else (x - inMin) / (inMax - inMin) * (oMax - oMin) + oMin

/-- React Native's `findRange`: scan `i = 1 .. length - 2` for the first
index with `inputRange[i] >= input` and return `i - 1`; if none matches the
loop falls through with `i = length - 1`. -/
def findRange (x : ℚ) (inputRange : List ℚ) : ℕ :=
  (((List.range' 1 (inputRange.length - 2)).find?
      (fun i => decide (x ≤ inputRange.getD i 0))).getD (inputRange.length - 1)) - 1

/-- React Native's `interpolate` on a monotone input range: pick the
segment by `findRange` and interpolate linearly inside it. -/
def interpolate (inputRange outputRange : List ℚ) (x : ℚ) : ℚ :=
  let r := findRange x inputRange
  interpSeg (inputRange.getD r 0) (inputRange.getD (r + 1) 0)
    (outputRange.getD r 0) (outputRange.getD (r + 1) 0) x

/-- The label's animated `opacity`:
`animFAB.interpolate(inputRange: propForDirection([distance, 0.7 * distance, 0]),
outputRange: propForDirection([1, 0, 0]))`. -/
def labelOpacity (animateFrom : AnimatedFABAnimateFrom) (textWidth : ℚ) (isV3 : Bool)
    (animFAB : ℚ) : ℚ :=
  let d := distance animateFrom textWidth isV3
  let r := isAnimatedFromRight animateFrom
  interpolate (propForDirection r [d, 0.7 * d, 0]) (propForDirection r [1, 0, 0]) animFAB

/-- The icon-circle shadow's animated `opacity`:
`animFAB.interpolate(inputRange: propForDirection([distance, 0.9 * distance, 0]),
outputRange: propForDirection([0, 0.85, 1]))`. -/
def iconShadowOpacity (animateFrom : AnimatedFABAnimateFrom) (textWidth : ℚ) (isV3 : Bool)
    (animFAB : ℚ) : ℚ :=
  let d := distance animateFrom textWidth isV3
  let r := isAnimatedFromRight animateFrom
  interpolate (propForDirection r [d, 0.9 * d, 0]) (propForDirection r [0, 0.85, 1]) animFAB

/-- The icon-circle shadow's animated `borderRadius`:
`animFAB.interpolate(inputRange: propForDirection([distance, 0]),
outputRange: propForDirection([SIZE / (extendedWidth / SIZE), borderRadius]))`. -/
def iconShadowBorderRadius (animateFrom : AnimatedFABAnimateFrom) (textWidth : ℚ) (isV3 : Bool)
    (animFAB : ℚ) : ℚ :=
  let d := distance animateFrom textWidth isV3
  let r := isAnimatedFromRight animateFrom
  interpolate (propForDirection r [d, 0])
    (propForDirection r [SIZE / (extendedWidth textWidth isV3 / SIZE), borderRadius isV3])
    animFAB

/-- The `onTextLayout` handler, as a pure state transformer on the
`(textWidth, textHeight)` pair: it compares the ceilings of the measured
first line's width and height with the stored state and, when either
differs, stores the new height and the new width (minus 12 on iOS). -/
def onTextLayout (isIOS : Bool) (width height : ℚ) (textWidth textHeight : ℚ) : ℚ × ℚ :=
  let currentWidth : ℚ := (⌈width⌉ : ℤ)
  let currentHeight : ℚ := (⌈height⌉ : ℤ)
  if currentWidth ≠ textWidth ∨ currentHeight ≠ textHeight then
    (if isIOS then currentWidth - 12 else currentWidth, currentHeight)
  else
    (textWidth, textHeight)

/-- The slice of the theme the FAB reads: `theme.animation.scale`. -/
structure ThemeAnimation where
  scale : ℚ
  deriving DecidableEq, Repr

/-- The slice of the theme the FAB reads: `isV3` and `animation.scale`. -/
structure Theme where
  isV3 : Bool
  animation : ThemeAnimation
  deriving DecidableEq, Repr

/-- The props of `AnimatedFAB` that matter for its animated state, together
with props (icon, label, colors, handlers' identity, ...) that must not
influence it. -/
structure FABProps where
  icon : String
  label : String
  accessibilityLabel : Option String
  customColor : Option String
  disabled : Bool
  visible : Bool
  iconMode : AnimatedFABIconMode
  animateFrom : AnimatedFABAnimateFrom
  extended : Bool
  uppercase : Option Bool
  testID : Option String
  theme : Theme
  deriving DecidableEq, Repr

/-- The animation targets and derived style quantities the component
computes on a render with measured text width `textWidth`. -/
structure FABTargetState where
  visibilityTarget : ℚ
  animFABTarget : ℚ
  borderRadius : ℚ
  extendedWidth : ℚ
  distance : ℚ
  deriving DecidableEq, Repr

/-- One render of `AnimatedFAB`, collapsed to the animation targets and the
derived style quantities, exactly as the component body computes them. -/
def targetState (p : FABProps) (textWidth : ℚ) : FABTargetState :=
  let d := distance p.animateFrom textWidth p.theme.isV3
  { visibilityTarget := (visibilityTiming p.visible p.theme.animation.scale).toValue
    animFABTarget := (animFABTiming p.extended d p.theme.animation.scale).toValue
    borderRadius := borderRadius p.theme.isV3
    extendedWidth := extendedWidth textWidth p.theme.isV3
    distance := d }

/-- `DrawerItem`'s `const labelMargin = icon ? (isV3 ? 12 : 32) : 0`. -/
def drawerItemLabelMargin (icon : Option String) (isV3 : Bool) : ℚ :=
  if icon.isSome then (if isV3 then 12 else 32) else 0

/-- `DrawerItem`'s `backgroundColor`: when `active`, the v3 secondary
container color or the primary color at alpha 0.12 depending on the theme
version (both passed in here as the strings those lookups produce), and
`'transparent'` otherwise. -/
def drawerItemBackgroundColor (active isV3 : Bool)
    (secondaryContainer primaryAlpha12 : String) : String :=
  if active then (if isV3 then secondaryContainer else primaryAlpha12)
  else "transparent"

/-- A concrete prop assignment, used to exercise the theorems below. -/
def fabPropsA : FABProps :=
  ⟨"plus", "Add items", none, none, false, true, .dynamic, .right, true, none, none,
    ⟨true, ⟨1⟩⟩⟩

/-- The same interface-relevant props as `fabPropsA` (visible, extended,
animateFrom, theme) but different icon, label, color, disabled flag,
iconMode and testID. -/
def fabPropsB : FABProps :=
  ⟨"minus", "Remove items", some "a11y", some "red", true, true, .static, .right, true,
    some true, some "fab-test", ⟨true, ⟨1⟩⟩⟩

/-! ### Helper lemmas about the interpolation model -/

theorem interpolate_pair (a b oa ob x : ℚ) :
    interpolate [a, b] [oa, ob] x = interpSeg a b oa ob x := rfl

theorem interpolate_triple (a b c oa ob oc x : ℚ) :
    interpolate [a, b, c] [oa, ob, oc] x =
      if x ≤ b then interpSeg a b oa ob x else interpSeg b c ob oc x := by
  by_cases h : x ≤ b
  · simp [interpolate, findRange, List.range', List.find?, h]
  · simp [interpolate, findRange, List.range', List.find?, h]

theorem interpSeg_at_left (a b oa ob : ℚ) : interpSeg a b oa ob a = oa := by
  unfold interpSeg
  split_ifs <;> simp_all

theorem interpSeg_at_right (a b oa ob : ℚ) (h : a ≠ b) :
    interpSeg a b oa ob b = ob := by
  by_cases h1 : oa = ob
  · simp [interpSeg, h1]
  · simp only [interpSeg, if_neg h1, if_neg h]
    rw [div_self (sub_ne_zero.mpr (Ne.symm h))]
    ring

theorem interpSeg_const (a b o x : ℚ) : interpSeg a b o o x = o := by
  simp [interpSeg]

theorem borderRadius_pos (isV3 : Bool) : 0 < borderRadius isV3 := by
  unfold borderRadius SIZE
  split_ifs <;> norm_num

theorem interp3_neg_profile (d : ℚ) (hd : d < 0) :
    interpolate [d, 0.7 * d, 0] [1, 0, 0] d = 1 ∧
    ∀ x : ℚ, 0.7 * d ≤ x → x ≤ 0 → interpolate [d, 0.7 * d, 0] [1, 0, 0] x = 0 := by
  have h7 : d < 0.7 * d := by linarith
  constructor
  · rw [interpolate_triple, if_pos (le_of_lt h7)]
    exact interpSeg_at_left _ _ _ _
  · intro x hx1 hx2
    rw [interpolate_triple]
    by_cases hx : x ≤ 0.7 * d
    · rw [if_pos hx, le_antisymm hx hx1]
      exact interpSeg_at_right _ _ _ _ (ne_of_lt h7)
    · rw [if_neg hx]
      exact interpSeg_const _ _ _ _

theorem interp3_pos_profile (d : ℚ) (hd : 0 < d) :
    interpolate [0, 0.7 * d, d] [0, 0, 1] d = 1 ∧
    ∀ x : ℚ, 0 ≤ x → x ≤ 0.7 * d → interpolate [0, 0.7 * d, d] [0, 0, 1] x = 0 := by
  have h7 : 0.7 * d < d := by linarith
  constructor
  · rw [interpolate_triple, if_neg (not_le.mpr h7)]
    exact interpSeg_at_right _ _ _ _ (ne_of_lt h7)
  · intro x hx1 hx2
    rw [interpolate_triple, if_pos hx2]
    exact interpSeg_const _ _ _ _

theorem interp3_neg_shadow (d : ℚ) (hd : d < 0) :
    interpolate [d, 0.9 * d, 0] [0, 0.85, 1] 0 = 1 ∧
    interpolate [d, 0.9 * d, 0] [0, 0.85, 1] d = 0 := by
  have h9 : d < 0.9 * d := by linarith
  have h90 : 0.9 * d < 0 := by linarith
  constructor
  · rw [interpolate_triple, if_neg (not_le.mpr h90)]
    exact interpSeg_at_right _ _ _ _ (ne_of_lt h90)
  · rw [interpolate_triple, if_pos (le_of_lt h9)]
    exact interpSeg_at_left _ _ _ _

theorem interp3_pos_shadow (d : ℚ) (hd : 0 < d) :
    interpolate [0, 0.9 * d, d] [1, 0.85, 0] 0 = 1 ∧
    interpolate [0, 0.9 * d, d] [1, 0.85, 0] d = 0 := by
  have h9 : 0.9 * d < d := by linarith
  have h90 : 0 < 0.9 * d := by linarith
  constructor
  · rw [interpolate_triple, if_pos (le_of_lt h90)]
    exact interpSeg_at_left _ _ _ _
  · rw [interpolate_triple, if_neg (not_le.mpr h9)]
    exact interpSeg_at_right _ _ _ _ (ne_of_lt h9)

/-! ### The claims -/

/-- Claim C1: the expand/collapse transition is a single timed
interpolation of `animFAB`: target `distance` when `extended`, target `0`
otherwise, always with duration `150 * theme.animation.scale` and linear
easing. -/
theorem animFAB_timing_characterisation (af : AnimatedFABAnimateFrom)
    (tw scale : ℚ) (isV3 extended : Bool) :
    (animFABTiming extended (distance af tw isV3) scale).toValue =
      (if extended then distance af tw isV3 else 0) ∧
    (animFABTiming extended (distance af tw isV3) scale).duration = 150 * scale ∧
    (animFABTiming extended (distance af tw isV3) scale).easing = Easing.linear := by
  cases extended <;> exact ⟨rfl, rfl, rfl⟩

/-- Claim C2: the show/hide transition drives `visibility` toward 1 with
duration `200 * scale` when `visible`, toward 0 with duration `150 * scale`
when not, and `visibility` starts at 1 or 0 according to `visible` at
mount. -/
theorem visibility_timing_characterisation (visible : Bool) (scale : ℚ) :
    (visibilityTiming true scale).toValue = 1 ∧
    (visibilityTiming true scale).duration = 200 * scale ∧
    (visibilityTiming false scale).toValue = 0 ∧
    (visibilityTiming false scale).duration = 150 * scale ∧
    visibilityInit visible = (if visible then 1 else 0) := by
  refine ⟨rfl, rfl, rfl, rfl, ?_⟩
  cases visible <;> rfl

/-- Claim C3: `animateFrom` ranges over exactly left/right with default
right, and `iconMode` over exactly static/dynamic with default dynamic. -/
theorem animateFrom_iconMode_ranges :
    (∀ a : AnimatedFABAnimateFrom, a = .left ∨ a = .right) ∧
    (∀ m : AnimatedFABIconMode, m = .static ∨ m = .dynamic) ∧
    resolveAnimateFrom none = .right ∧
    resolveIconMode none = .dynamic := by
  refine ⟨fun a => ?_, fun m => ?_, rfl, rfl⟩
  · cases a
    · exact Or.inl rfl
    · exact Or.inr rfl
  · cases m
    · exact Or.inl rfl
    · exact Or.inr rfl

/-- Claim C4: `extendedWidth = textWidth + 56 + borderRadius`, with
`borderRadius = 56 / 3.5` under a v3 theme and `56 / 2` otherwise, for
every measured text width and both theme versions. -/
theorem extendedWidth_formula (tw : ℚ) (isV3 : Bool) :
    extendedWidth tw isV3 = tw + 56 + borderRadius isV3 ∧
    borderRadius true = 56 / 3.5 ∧
    borderRadius false = 56 / 2 := by
  refine ⟨rfl, ?_, ?_⟩ <;> norm_num [borderRadius, SIZE]

/-- Claim C5: direction handling is a reversal symmetry:
`propForDirection` is the identity for right and `List.reverse` for left,
and `distance` for right is the negation of `distance` for left, namely
`-(textWidth + borderRadius)` versus `textWidth + borderRadius`. -/
theorem direction_reversal_symmetry :
    (∀ (T : Type) (xs : List T),
       propForDirection (isAnimatedFromRight .right) xs = xs ∧
       propForDirection (isAnimatedFromRight .left) xs = xs.reverse) ∧
    (∀ (tw : ℚ) (isV3 : Bool),
       distance .right tw isV3 = -(tw + borderRadius isV3) ∧
       distance .left tw isV3 = tw + borderRadius isV3 ∧
       distance .right tw isV3 = -(distance .left tw isV3)) := by
  constructor
  · exact fun T xs => ⟨rfl, rfl⟩
  · intro tw isV3
    refine ⟨?_, rfl, ?_⟩ <;> simp [distance, isAnimatedFromRight] <;> ring

/-- Claim C6: for both directions the label's interpolated opacity is 1 at
`animFAB = distance` and 0 on the whole closed segment between
`0.7 * distance` and 0, in particular at the collapsed state
`animFAB = 0`. -/
theorem label_opacity_profile (af : AnimatedFABAnimateFrom) (tw : ℚ) (isV3 : Bool)
    (htw : 0 ≤ tw) :
    labelOpacity af tw isV3 (distance af tw isV3) = 1 ∧
    labelOpacity af tw isV3 0 = 0 ∧
    ∀ x : ℚ, min (0.7 * distance af tw isV3) 0 ≤ x →
      x ≤ max (0.7 * distance af tw isV3) 0 → labelOpacity af tw isV3 x = 0 := by
  have hbr := borderRadius_pos isV3
  cases af with
  | right =>
    have hd : distance AnimatedFABAnimateFrom.right tw isV3 < 0 := by
      show -tw - borderRadius isV3 < 0
      linarith
    have h7 : 0.7 * distance AnimatedFABAnimateFrom.right tw isV3 ≤ 0 := by linarith
    have heq : ∀ x : ℚ, labelOpacity AnimatedFABAnimateFrom.right tw isV3 x =
        interpolate [distance AnimatedFABAnimateFrom.right tw isV3,
          0.7 * distance AnimatedFABAnimateFrom.right tw isV3, 0] [1, 0, 0] x :=
      fun _ => rfl
    obtain ⟨h1, h2⟩ := interp3_neg_profile _ hd
    refine ⟨(heq _).trans h1, (heq 0).trans (h2 0 h7 le_rfl), ?_⟩
    intro x hx1 hx2
    rw [min_eq_left h7] at hx1
    rw [max_eq_right h7] at hx2
    exact (heq x).trans (h2 x hx1 hx2)
  | left =>
    have hd : 0 < distance AnimatedFABAnimateFrom.left tw isV3 := by
      show 0 < tw + borderRadius isV3
      linarith
    have h7 : 0 ≤ 0.7 * distance AnimatedFABAnimateFrom.left tw isV3 := by linarith
    have heq : ∀ x : ℚ, labelOpacity AnimatedFABAnimateFrom.left tw isV3 x =
        interpolate [0, 0.7 * distance AnimatedFABAnimateFrom.left tw isV3,
          distance AnimatedFABAnimateFrom.left tw isV3] [0, 0, 1] x :=
      fun _ => rfl
    obtain ⟨h1, h2⟩ := interp3_pos_profile _ hd
    refine ⟨(heq _).trans h1, (heq 0).trans (h2 0 le_rfl h7), ?_⟩
    intro x hx1 hx2
    rw [min_eq_right h7] at hx1
    rw [max_eq_left h7] at hx2
    exact (heq x).trans (h2 x hx1 hx2)

/-- Witness for `label_opacity_profile` at `animateFrom = right`,
`textWidth = 10`, a v3 theme, and the interior point `-5` of the
transparent segment. -/
theorem label_opacity_profile_witness :
    (0 : ℚ) ≤ 10 ∧
    labelOpacity .right 10 true (distance .right 10 true) = 1 ∧
    labelOpacity .right 10 true 0 = 0 ∧
    labelOpacity .right 10 true (-5) = 0 := by
  have h := label_opacity_profile .right 10 true (by norm_num)
  refine ⟨by norm_num, h.1, h.2.1, h.2.2 (-5) ?_ ?_⟩
  · norm_num [distance, isAnimatedFromRight, borderRadius, SIZE, min_def]
  · norm_num [distance, isAnimatedFromRight, borderRadius, SIZE, max_def]

/-- Claim C7: for both directions the icon-circle shadow's interpolated
border radius is `borderRadius` at `animFAB = 0` and
`SIZE / (extendedWidth / SIZE)` (equivalently `56 ^ 2 / extendedWidth`) at
`animFAB = distance`, while its interpolated opacity is 1 at `animFAB = 0`
and 0 at `animFAB = distance`. -/
theorem icon_shadow_profile (af : AnimatedFABAnimateFrom) (tw : ℚ) (isV3 : Bool)
    (htw : 0 ≤ tw) :
    iconShadowBorderRadius af tw isV3 0 = borderRadius isV3 ∧
    iconShadowBorderRadius af tw isV3 (distance af tw isV3) =
      SIZE / (extendedWidth tw isV3 / SIZE) ∧
    SIZE / (extendedWidth tw isV3 / SIZE) = 56 ^ 2 / extendedWidth tw isV3 ∧
    iconShadowOpacity af tw isV3 0 = 1 ∧
    iconShadowOpacity af tw isV3 (distance af tw isV3) = 0 := by
  have hbr := borderRadius_pos isV3
  have hform : SIZE / (extendedWidth tw isV3 / SIZE) = 56 ^ 2 / extendedWidth tw isV3 := by
    rw [div_div_eq_mul_div]
    norm_num [SIZE]
  cases af with
  | right =>
    have hd : distance AnimatedFABAnimateFrom.right tw isV3 < 0 := by
      show -tw - borderRadius isV3 < 0
      linarith
    have hbrEq : ∀ x : ℚ, iconShadowBorderRadius AnimatedFABAnimateFrom.right tw isV3 x =
        interpSeg (distance AnimatedFABAnimateFrom.right tw isV3) 0
          (SIZE / (extendedWidth tw isV3 / SIZE)) (borderRadius isV3) x :=
      fun _ => rfl
    refine ⟨?_, ?_, hform, ?_, ?_⟩
    · exact (hbrEq 0).trans (interpSeg_at_right _ _ _ _ (ne_of_lt hd))
    · exact (hbrEq _).trans (interpSeg_at_left _ _ _ _)
    · exact (interp3_neg_shadow _ hd).1
    · exact (interp3_neg_shadow _ hd).2
  | left =>
    have hd : 0 < distance AnimatedFABAnimateFrom.left tw isV3 := by
      show 0 < tw + borderRadius isV3
      linarith
    have hbrEq : ∀ x : ℚ, iconShadowBorderRadius AnimatedFABAnimateFrom.left tw isV3 x =
        interpSeg 0 (distance AnimatedFABAnimateFrom.left tw isV3)
          (borderRadius isV3) (SIZE / (extendedWidth tw isV3 / SIZE)) x :=
      fun _ => rfl
    refine ⟨?_, ?_, hform, ?_, ?_⟩
    · exact (hbrEq 0).trans (interpSeg_at_left _ _ _ _)
    · exact (hbrEq _).trans (interpSeg_at_right _ _ _ _ (ne_of_lt hd))
    · exact (interp3_pos_shadow _ hd).1
    · exact (interp3_pos_shadow _ hd).2

/-- Witness for `icon_shadow_profile` at `animateFrom = left`,
`textWidth = 10`, a v2 theme. -/
theorem icon_shadow_profile_witness :
    (0 : ℚ) ≤ 10 ∧
    iconShadowBorderRadius .left 10 false 0 = borderRadius false ∧
    iconShadowOpacity .left 10 false 0 = 1 ∧
    iconShadowOpacity .left 10 false (distance .left 10 false) = 0 := by
  have h := icon_shadow_profile .left 10 false (by norm_num)
  exact ⟨by norm_num, h.1, h.2.2.2.1, h.2.2.2.2⟩

/-- Claim C8: the animated target state is a deterministic function of
`(visible, extended, animateFrom, textWidth, theme)`: props that agree on
those produce identical targets and derived style quantities, whatever
their icon, label, colors, disabled flag, icon mode or test id; and the
targets are `visible ? 1 : 0` and `extended ? distance : 0`. -/
theorem target_state_determined_by_interface (p q : FABProps) (tw : ℚ)
    (hv : p.visible = q.visible) (he : p.extended = q.extended)
    (ha : p.animateFrom = q.animateFrom) (ht : p.theme = q.theme) :
    targetState p tw = targetState q tw ∧
    (targetState p tw).visibilityTarget = (if p.visible then 1 else 0) ∧
    (targetState p tw).animFABTarget =
      (if p.extended then distance p.animateFrom tw p.theme.isV3 else 0) := by
  refine ⟨?_, ?_, ?_⟩
  · simp [targetState, hv, he, ha, ht]
  · cases hp : p.visible <;> simp [targetState, visibilityTiming, hp]
  · cases hp : p.extended <;> simp [targetState, animFABTiming, hp]

/-- Witness for `target_state_determined_by_interface`: `fabPropsA` and
`fabPropsB` differ in icon, label, accessibility label, color, disabled,
icon mode, uppercase and test id, yet produce the same target state. -/
theorem target_state_witness :
    fabPropsA.icon ≠ fabPropsB.icon ∧
    fabPropsA.disabled ≠ fabPropsB.disabled ∧
    targetState fabPropsA 10 = targetState fabPropsB 10 := by
  have h := target_state_determined_by_interface fabPropsA fabPropsB 10 rfl rfl rfl rfl
  exact ⟨by decide, by decide, h.1⟩

/-- Claim C9: `onTextLayout` leaves the stored `(textWidth, textHeight)`
unchanged exactly when the ceilings of the measured width and height both
equal the stored values; otherwise it stores `ceil(height)` and
`ceil(width) - 12` on iOS resp. `ceil(width)` elsewhere. -/
theorem onTextLayout_frame (isIOS : Bool) (w h tw th : ℚ) :
    (((⌈w⌉ : ℤ) : ℚ) = tw ∧ ((⌈h⌉ : ℤ) : ℚ) = th →
       onTextLayout isIOS w h tw th = (tw, th)) ∧
    (¬(((⌈w⌉ : ℤ) : ℚ) = tw ∧ ((⌈h⌉ : ℤ) : ℚ) = th) →
       onTextLayout isIOS w h tw th =
         (if isIOS then ((⌈w⌉ : ℤ) : ℚ) - 12 else ((⌈w⌉ : ℤ) : ℚ), ((⌈h⌉ : ℤ) : ℚ))) := by
  constructor
  · rintro ⟨hw, hh⟩
    simp [onTextLayout, hw, hh]
  · intro hne
    have hor : ((⌈w⌉ : ℤ) : ℚ) ≠ tw ∨ ((⌈h⌉ : ℤ) : ℚ) ≠ th := by tauto
    simp only [onTextLayout]
    rw [if_pos hor]

/-- Witness for `onTextLayout_frame`: an iOS update at measured width 10
stores `10 - 12 = -2`, and a matching Android measurement is a no-op. -/
theorem onTextLayout_frame_witness :
    onTextLayout true 10 5 0 0 = (-2, 5) ∧
    onTextLayout false 10 5 10 5 = (10, 5) := by
  constructor
  · have h := (onTextLayout_frame true 10 5 0 0).2 (by norm_num)
    rw [h]
    norm_num
  · exact (onTextLayout_frame false 10 5 10 5).1 (by norm_num)

/-- Claim C10: a `DrawerItem`'s label margin is 0 without an icon, 12 with
an icon under a v3 theme, 32 with an icon under a non-v3 theme, and its
background color is transparent whenever the item is not active. -/
theorem drawer_item_margin_background (isV3 : Bool) (i : String)
    (secondaryContainer primaryAlpha12 : String) :
    drawerItemLabelMargin none isV3 = 0 ∧
    drawerItemLabelMargin (some i) true = 12 ∧
    drawerItemLabelMargin (some i) false = 32 ∧
    drawerItemBackgroundColor false isV3 secondaryContainer primaryAlpha12 =
      "transparent" := by
  exact ⟨rfl, rfl, rfl, rfl⟩

end RNPaper
